import Mathlib

/-!
Shallow embedding of the GitHub Copilot integration layer:

* the functions `normalizeExpiresAt`, `getCachedCopilotToken`,
  `getCachedCopilotModels` and `getCopilotToken` from
  `packages/components/nodes/chatmodels/ChatGitHubCopilot/ChatGitHubCopilot.ts`;
* the function `resolveDeviceFlowConfig` and the two Express route handlers
  (`POST /device/:credentialId`, `POST /device/poll/:credentialId`) from
  `packages/server/src/routes/github-copilot/index.ts`.

JavaScript `string | undefined` values are modelled as `Option String`,
with the truthiness test (`undefined` and `""` are falsy) made explicit.
`Date.now() / 1000` is modelled as an integer unix-seconds clock `now`;
since every stored expiry is an integer number of seconds, the comparison
`expiresAt > Date.now() / 1000 + 300` holds exactly when
`expiresAt > ⌊Date.now() / 1000⌋ + 300`, so the integer clock is exact.
Network calls and the credential store are oracles passed in as arguments;
the mutations the handlers would perform (cache writes, credential-store
writes, upstream calls) are returned explicitly in the result records.
-/

namespace GithubCopilot

/-- JavaScript truthiness of a `string | undefined` value:
`undefined` and the empty string are falsy. -/
def strTruthy : Option String → Bool
  | none => false
  | some s => !(s = "")

/-- JavaScript `a || b` on `string | undefined` values, where the
right-hand side is a plain (always defined) string. -/
def orElseStr (a : Option String) (b : String) : String :=
  match a with
  | none => b
  | some s => if s = "" then b else s

/-- JavaScript `a || b` where both sides are `string | undefined`. -/
def jsOr (a b : Option String) : Option String :=
  if strTruthy a then a else b

/-! ## Server routes: `packages/server/src/routes/github-copilot/index.ts` -/

/-- The constant `DEFAULT_GITHUB_DEVICE_FLOW_CLIENT_ID` (index.ts line 12). -/
def DEFAULT_GITHUB_DEVICE_FLOW_CLIENT_ID : String := "Iv1.b507a08c87ecfe98"

/-- The constant `DEFAULT_GITHUB_DEVICE_FLOW_SCOPE` (index.ts line 13). -/
def DEFAULT_GITHUB_DEVICE_FLOW_SCOPE : String := "read:user workflow repo"

/-- A decrypted credential attribute bag: a JavaScript object whose
string-valued properties are read by key. Absent keys are `none`. -/
abbrev Attrs := String → Option String

/-- The two environment variables the routes consult
(`process.env` entries are `string | undefined`). -/
structure Env where
  GITHUB_DEVICE_FLOW_CLIENT_ID : Option String
  GITHUB_DEVICE_FLOW_SCOPE : Option String

structure DeviceFlowConfig where
  clientId : String
  scope : String
deriving DecidableEq, Repr

/-- The function `resolveDeviceFlowConfig` (index.ts lines 17-30): resolve
client id and scope from the credential bag, the environment, and the
hardcoded defaults via JavaScript `||` chains. -/
def resolveDeviceFlowConfig (credentialData : Attrs) (env : Env) : DeviceFlowConfig :=
  { clientId :=
      orElseStr (credentialData "deviceFlowClientId")
        (orElseStr (credentialData "clientId")
          (orElseStr env.GITHUB_DEVICE_FLOW_CLIENT_ID DEFAULT_GITHUB_DEVICE_FLOW_CLIENT_ID))
    scope :=
      orElseStr (credentialData "deviceFlowScope")
        (orElseStr (credentialData "scope")
          (orElseStr env.GITHUB_DEVICE_FLOW_SCOPE DEFAULT_GITHUB_DEVICE_FLOW_SCOPE)) }

/-- The JSON body of the upstream token-endpoint response
(index.ts lines 115-121). -/
structure TokenResponseData where
  access_token : Option String
  token_type : Option String
  scope : Option String
  error : Option String
  error_description : Option String

/-- The HTTP response produced by a route handler: status code plus the
JSON fields the handlers emit (absent fields are `none`). -/
structure HttpReply where
  statusCode : Nat
  success : Bool
  status : Option String
  message : Option String
  error_description : Option String
  credentialId : Option String

/-- The reply of the dead `Missing GitHub device flow client ID` branch
shared by both route handlers (index.ts lines 47 and 97). -/
def missingClientIdReply : HttpReply :=
  { statusCode := 400, success := false, status := none,
    message := some "Missing GitHub device flow client ID",
    error_description := none, credentialId := none }

/-- Outcome of one `POST /device/poll/:credentialId` request: the HTTP
reply plus the externally visible effects (whether the credential store
was read, whether the upstream token endpoint was called, and the
attribute bag written back, if any). -/
structure PollOutcome where
  reply : HttpReply
  storeRead : Bool
  calledUpstream : Bool
  storeWrite : Option Attrs

/-- Request body of the poll route, carrying both accepted device-code
field names (index.ts line 79). -/
structure PollBody where
  deviceCode : Option String
  device_code : Option String

/-- The attribute bag written on a successful poll (index.ts lines
124-130): the decrypted bag is spread first, then the four GitHub token
fields, later keys overwriting earlier ones. `nowIso` models
`new Date().toISOString()`. -/
def updatedCredentialData (decryptedData : Attrs) (tokenData : TokenResponseData)
    (nowIso : String) : Attrs :=
  fun k =>
    if k = "githubAccessToken" then tokenData.access_token
    else if k = "githubTokenType" then tokenData.token_type
    else if k = "githubTokenScope" then tokenData.scope
    else if k = "githubTokenReceivedAt" then some nowIso
    else decryptedData k

/-- The poll route handler, `POST /device/poll/:credentialId` (index.ts
lines 76-162), modelled on its non-throwing path. `credential` is the
decrypted attribute bag of the credential found by `findOneBy` (`none`
when the credential does not exist); `tokenData` is the body the upstream
token endpoint would answer with, consulted only when the handler reaches
the `axios.post` call. -/
def pollDeviceFlow (credentialId : String) (body : PollBody)
    (credential : Option Attrs) (env : Env) (tokenData : TokenResponseData)
    (nowIso : String) : PollOutcome :=
  let deviceCode := jsOr body.deviceCode body.device_code
  if !(strTruthy deviceCode) then
    { reply := { statusCode := 400, success := false, status := none,
                 message := some "Missing deviceCode in request body",
                 error_description := none, credentialId := none }
      storeRead := false, calledUpstream := false, storeWrite := none }
  else
    match credential with
    | none =>
      { reply := { statusCode := 404, success := false, status := none,
                   message := some "Credential not found",
                   error_description := none, credentialId := none }
        storeRead := true, calledUpstream := false, storeWrite := none }
    | some decryptedData =>
      let cfg := resolveDeviceFlowConfig decryptedData env
      if cfg.clientId = "" then
        { reply := missingClientIdReply
          storeRead := true, calledUpstream := false, storeWrite := none }
      else if strTruthy tokenData.access_token then
        { reply := { statusCode := 200, success := true, status := some "authorized",
                     message := none, error_description := none,
                     credentialId := some credentialId }
          storeRead := true, calledUpstream := true,
          storeWrite := some (updatedCredentialData decryptedData tokenData nowIso) }
      else if tokenData.error = some "authorization_pending" ∨
              tokenData.error = some "slow_down" then
        { reply := { statusCode := 200, success := false, status := tokenData.error,
                     message := none, error_description := tokenData.error_description,
                     credentialId := none }
          storeRead := true, calledUpstream := true, storeWrite := none }
      else
        { reply := { statusCode := 400, success := false,
                     status := some (orElseStr tokenData.error "unknown_error"),
                     message := some (orElseStr tokenData.error_description "Device flow failed"),
                     error_description := none, credentialId := none }
          storeRead := true, calledUpstream := true, storeWrite := none }

/-- Outcome of one `POST /device/:credentialId` request. -/
structure StartOutcome where
  reply : HttpReply
  storeRead : Bool
  calledUpstream : Bool

/-- The start route handler, `POST /device/:credentialId` (index.ts lines
32-74), on its non-throwing path. The response body of the device-code endpoint
is spread into the success reply; only the fields this development reasons
about are kept. -/
def startDeviceFlow (credentialId : String) (credential : Option Attrs)
    (env : Env) : StartOutcome :=
  match credential with
  | none =>
    { reply := { statusCode := 404, success := false, status := none,
                 message := some "Credential not found",
                 error_description := none, credentialId := none }
      storeRead := true, calledUpstream := false }
  | some decryptedData =>
    let cfg := resolveDeviceFlowConfig decryptedData env
    if cfg.clientId = "" then
      { reply := missingClientIdReply
        storeRead := true, calledUpstream := false }
    else
      { reply := { statusCode := 200, success := true, status := none,
                   message := none, error_description := none,
                   credentialId := some credentialId }
        storeRead := true, calledUpstream := true }

/-! ## Chat-model node:
`packages/components/nodes/chatmodels/ChatGitHubCopilot/ChatGitHubCopilot.ts` -/

/-- The constant `TOKEN_REFRESH_BUFFER_SECONDS` (ChatGitHubCopilot.ts
line 9). -/
def TOKEN_REFRESH_BUFFER_SECONDS : Int := 300

/-- The function `normalizeExpiresAt` (ChatGitHubCopilot.ts lines 24-29):
values above `1_000_000_000_000` are millisecond timestamps and are
floored down to seconds (`Math.floor(expiresAt / 1000)` is floor
division). -/
def normalizeExpiresAt (expiresAt : Int) : Int :=
  if expiresAt > 1000000000000 then Int.fdiv expiresAt 1000
  else expiresAt

/-- An entry of `copilotTokenCache` (ChatGitHubCopilot.ts line 21):
`{ token: string; expiresAt: number }`, expiry in unix seconds. -/
structure CachedToken where
  token : String
  expiresAt : Int
deriving DecidableEq, Repr

/-- The in-memory `copilotTokenCache` map, keyed by cache key. -/
abbrev TokenCache := String → Option CachedToken

/-- A `Map.set` on the token cache. -/
def setToken (cache : TokenCache) (key : String) (v : CachedToken) : TokenCache :=
  fun k => if k = key then some v else cache k

/-- The fields of the decrypted credential data that
`getCachedCopilotToken` reads: `copilotToken` and `copilotTokenExpiresAt`.
A stored expiry of `0` is falsy in the JavaScript guard
`if (storedToken && storedExpiresAt)`. -/
structure CredSnapshot where
  copilotToken : Option String
  copilotTokenExpiresAt : Option Int

/-- The second half of `getCachedCopilotToken` (ChatGitHubCopilot.ts lines
151-161): fall back to the token persisted in the credential data, seeding
the cache when that token is still fresh by the buffer rule. -/
def getStoredCopilotToken (cache : TokenCache) (cacheKey : String)
    (credentialData : CredSnapshot) (now : Int) : Option String × TokenCache :=
  match credentialData.copilotToken, credentialData.copilotTokenExpiresAt with
  | some storedToken, some storedExpiresAt =>
    if storedToken ≠ "" ∧ storedExpiresAt ≠ 0 then
      let normalizedExpiresAt := normalizeExpiresAt storedExpiresAt
      if normalizedExpiresAt > now + TOKEN_REFRESH_BUFFER_SECONDS then
        (some storedToken,
         setToken cache cacheKey ⟨storedToken, normalizedExpiresAt⟩)
      else (none, cache)
    else (none, cache)
  | _, _ => (none, cache)

/-- The function `getCachedCopilotToken` (ChatGitHubCopilot.ts lines
145-162). Returns the token found (`undefined` as `none`) together with
the token cache as it stands after the call (the only mutation is
the seeding `set` on line 156, inside `getStoredCopilotToken`). `now` is
`Date.now() / 1000` as an integer unix-seconds clock. -/
def getCachedCopilotToken (cache : TokenCache) (cacheKey : String)
    (credentialData : CredSnapshot) (now : Int) : Option String × TokenCache :=
  match cache cacheKey with
  | some cached =>
    if cached.expiresAt > now + TOKEN_REFRESH_BUFFER_SECONDS then
      (some cached.token, cache)
    else
      getStoredCopilotToken cache cacheKey credentialData now
  | none => getStoredCopilotToken cache cacheKey credentialData now

/-- An `INodeOptionsValue` as far as the model cache is concerned. -/
structure ModelOption where
  label : String
  name : String
deriving DecidableEq, Repr

/-- An entry of `copilotModelCache` (ChatGitHubCopilot.ts line 22):
`{ models; expiresAt }`, expiry in unix milliseconds. -/
structure CachedModels where
  models : List ModelOption
  expiresAt : Int
deriving DecidableEq, Repr

/-- The in-memory `copilotModelCache` map. -/
abbrev ModelCache := String → Option CachedModels

/-- The function `getCachedCopilotModels` (ChatGitHubCopilot.ts lines
48-57): return the cached list while fresh; a stale entry is deleted and
`undefined` is returned. `nowMs` is `Date.now()` in milliseconds. -/
def getCachedCopilotModels (cache : ModelCache) (cacheKey : String)
    (nowMs : Int) : Option (List ModelOption) × ModelCache :=
  match cache cacheKey with
  | some cached =>
    if cached.expiresAt > nowMs then (some cached.models, cache)
    else (none, fun k => if k = cacheKey then none else cache k)
  | none => (none, cache)

/-- The `{ token, expires_at }` body the Copilot token-exchange endpoint
answers with (ChatGitHubCopilot.ts line 178). -/
structure ExchangeResponse where
  token : String
  expires_at : Int

/-- The pure part of `fetchCopilotToken` (ChatGitHubCopilot.ts lines
178-182): parse the exchange response, normalizing its expiry. -/
def fetchCopilotToken (response : ExchangeResponse) : CachedToken :=
  ⟨response.token, normalizeExpiresAt response.expires_at⟩

/-- Outcome of `getCopilotToken`: the token handed to the caller, the
token cache after the call, and whether the exchange endpoint was
called. -/
structure CopilotTokenOutcome where
  token : String
  cache : TokenCache
  calledExchange : Bool

/-- The function `getCopilotToken` (ChatGitHubCopilot.ts lines 185-192).
The JavaScript `if (cached) return cached` tests string truthiness, so an
empty cached token falls through to the network exchange. `exchange` is
the body the exchange endpoint would answer with, consulted only on the
fetch path. -/
def getCopilotToken (cache : TokenCache) (cacheKey : String)
    (credentialData : CredSnapshot) (now : Int)
    (exchange : ExchangeResponse) : CopilotTokenOutcome :=
  let r := getCachedCopilotToken cache cacheKey credentialData now
  if strTruthy r.1 then
    { token := r.1.getD "", cache := r.2, calledExchange := false }
  else
    let fetched := fetchCopilotToken exchange
    { token := fetched.token,
      cache := setToken r.2 cacheKey fetched,
      calledExchange := true }

/-! ## Predicates used by the theorem statements -/

/-- Does the credential snapshot hold a stored token the fallback branch
of `getCachedCopilotToken` would accept: a truthy token and expiry whose
normalized value is beyond the refresh buffer? -/
def hasFreshStoredToken (credentialData : CredSnapshot) (now : Int) : Bool :=
  match credentialData.copilotToken, credentialData.copilotTokenExpiresAt with
  | some storedToken, some storedExpiresAt =>
    if storedToken ≠ "" ∧ storedExpiresAt ≠ 0 then
      if normalizeExpiresAt storedExpiresAt > now + TOKEN_REFRESH_BUFFER_SECONDS then
        true
      else false
    else false
  | _, _ => false

/-- Does the token cache hold a fresh (beyond-the-buffer) entry for the
given key? -/
def freshCacheHit (cache : TokenCache) (cacheKey : String) (now : Int) : Bool :=
  match cache cacheKey with
  | some cached =>
    if cached.expiresAt > now + TOKEN_REFRESH_BUFFER_SECONDS then true else false
  | none => false

/-- An attribute bag with no keys, and an environment with neither
variable set. -/
def emptyAttrs : Attrs := fun _ => none

def emptyEnv : Env := ⟨none, none⟩

/-- A snapshot with no stored copilot token. -/
def emptySnapshot : CredSnapshot := ⟨none, none⟩

/-! ## Helper lemmas -/

theorem orElseStr_of_truthy (a : Option String) (b s : String)
    (ha : a = some s) (hs : s ≠ "") : orElseStr a b = s := by
  subst ha; simp [orElseStr, hs]

theorem orElseStr_of_falsy (a : Option String) (b : String)
    (ha : strTruthy a = false) : orElseStr a b = b := by
  cases a with
  | none => rfl
  | some s => simp [strTruthy] at ha; simp [orElseStr, ha]

theorem orElseStr_ne_empty (a : Option String) (b : String)
    (hb : b ≠ "") : orElseStr a b ≠ "" := by
  cases a with
  | none => simpa [orElseStr] using hb
  | some s =>
    by_cases hs : s = "" <;> simp [orElseStr, hs, hb]

/-- The resolved client id is never the empty string: the `||` chain ends
in the non-empty hardcoded default. -/
theorem resolveDeviceFlowConfig_clientId_ne_empty (credentialData : Attrs)
    (env : Env) : (resolveDeviceFlowConfig credentialData env).clientId ≠ "" := by
  exact orElseStr_ne_empty _ _ (orElseStr_ne_empty _ _ (orElseStr_ne_empty _ _ (by decide)))

/-! ## Claims -/

/-- C5: for every number `e`, `normalizeExpiresAt e` is `⌊e / 1000⌋` when
`e > 10^12` and `e` otherwise; in particular input `1893456000000` yields
`1893456000` and input `1893456000` is unchanged. -/
theorem normalizeExpiresAt_threshold :
    (∀ e : Int, e > 1000000000000 → normalizeExpiresAt e = Int.fdiv e 1000) ∧
    (∀ e : Int, e ≤ 1000000000000 → normalizeExpiresAt e = e) ∧
    normalizeExpiresAt 1893456000000 = 1893456000 ∧
    normalizeExpiresAt 1893456000 = 1893456000 := by
  refine ⟨fun e he => ?_, fun e he => ?_, by decide, by decide⟩
  · simp [normalizeExpiresAt, he]
  · simp [normalizeExpiresAt]
    omega

/-- Witness for C5 at concrete inputs on both sides of the threshold. -/
theorem normalizeExpiresAt_threshold_witness :
    normalizeExpiresAt 1700000000000123 = 1700000000000 ∧
    normalizeExpiresAt 42 = 42 :=
  ⟨(normalizeExpiresAt_threshold.1 1700000000000123 (by norm_num)).trans (by decide),
   normalizeExpiresAt_threshold.2.1 42 (by norm_num)⟩

/-- C6: `resolveDeviceFlowConfig` resolves `clientId` and `scope` with
precedence credential-stored override, then environment variable, then
hardcoded default; with no credential override and the environment
variable unset the results are `"Iv1.b507a08c87ecfe98"` and
`"read:user workflow repo"`. -/
theorem resolveDeviceFlowConfig_precedence (credentialData : Attrs) (env : Env) :
    (∀ s, credentialData "deviceFlowClientId" = some s → s ≠ "" →
      (resolveDeviceFlowConfig credentialData env).clientId = s) ∧
    (strTruthy (credentialData "deviceFlowClientId") = false →
      ∀ s, credentialData "clientId" = some s → s ≠ "" →
      (resolveDeviceFlowConfig credentialData env).clientId = s) ∧
    (strTruthy (credentialData "deviceFlowClientId") = false →
      strTruthy (credentialData "clientId") = false →
      ∀ s, env.GITHUB_DEVICE_FLOW_CLIENT_ID = some s → s ≠ "" →
      (resolveDeviceFlowConfig credentialData env).clientId = s) ∧
    (strTruthy (credentialData "deviceFlowClientId") = false →
      strTruthy (credentialData "clientId") = false →
      strTruthy env.GITHUB_DEVICE_FLOW_CLIENT_ID = false →
      (resolveDeviceFlowConfig credentialData env).clientId = "Iv1.b507a08c87ecfe98") ∧
    (∀ s, credentialData "deviceFlowScope" = some s → s ≠ "" →
      (resolveDeviceFlowConfig credentialData env).scope = s) ∧
    (strTruthy (credentialData "deviceFlowScope") = false →
      strTruthy (credentialData "scope") = false →
      ∀ s, env.GITHUB_DEVICE_FLOW_SCOPE = some s → s ≠ "" →
      (resolveDeviceFlowConfig credentialData env).scope = s) ∧
    (strTruthy (credentialData "deviceFlowScope") = false →
      strTruthy (credentialData "scope") = false →
      strTruthy env.GITHUB_DEVICE_FLOW_SCOPE = false →
      (resolveDeviceFlowConfig credentialData env).scope = "read:user workflow repo") := by
  refine ⟨?_, ?_, ?_, ?_, ?_, ?_, ?_⟩
  · intro s hs hne
    simp only [resolveDeviceFlowConfig]
    exact orElseStr_of_truthy _ _ _ hs hne
  · intro h1 s hs hne
    simp only [resolveDeviceFlowConfig]
    rw [orElseStr_of_falsy _ _ h1]
    exact orElseStr_of_truthy _ _ _ hs hne
  · intro h1 h2 s hs hne
    simp only [resolveDeviceFlowConfig]
    rw [orElseStr_of_falsy _ _ h1, orElseStr_of_falsy _ _ h2]
    exact orElseStr_of_truthy _ _ _ hs hne
  · intro h1 h2 h3
    simp only [resolveDeviceFlowConfig]
    rw [orElseStr_of_falsy _ _ h1, orElseStr_of_falsy _ _ h2,
      orElseStr_of_falsy _ _ h3]
    rfl
  · intro s hs hne
    simp only [resolveDeviceFlowConfig]
    exact orElseStr_of_truthy _ _ _ hs hne
  · intro h1 h2 s hs hne
    simp only [resolveDeviceFlowConfig]
    rw [orElseStr_of_falsy _ _ h1, orElseStr_of_falsy _ _ h2]
    exact orElseStr_of_truthy _ _ _ hs hne
  · intro h1 h2 h3
    simp only [resolveDeviceFlowConfig]
    rw [orElseStr_of_falsy _ _ h1, orElseStr_of_falsy _ _ h2,
      orElseStr_of_falsy _ _ h3]
    rfl

/-- Witness for C6: with an empty credential bag and an unset environment
the defaults are resolved. -/
theorem resolveDeviceFlowConfig_precedence_witness :
    (resolveDeviceFlowConfig emptyAttrs emptyEnv).clientId = "Iv1.b507a08c87ecfe98" ∧
    (resolveDeviceFlowConfig emptyAttrs emptyEnv).scope = "read:user workflow repo" :=
  ⟨(resolveDeviceFlowConfig_precedence emptyAttrs emptyEnv).2.2.2.1 rfl rfl rfl,
   (resolveDeviceFlowConfig_precedence emptyAttrs emptyEnv).2.2.2.2.2.2 rfl rfl rfl⟩

/-- C10: the resolved client id is never empty (the hardcoded default is
the final fallback), so neither route handler can produce the
`Missing GitHub device flow client ID` 400 reply. -/
theorem deviceFlow_missing_clientId_unreachable (credentialData : Attrs)
    (env : Env) (credentialId : String) (credential : Option Attrs)
    (body : PollBody) (tokenData : TokenResponseData) (nowIso : String) :
    (resolveDeviceFlowConfig credentialData env).clientId ≠ "" ∧
    (startDeviceFlow credentialId credential env).reply ≠ missingClientIdReply ∧
    (pollDeviceFlow credentialId body credential env tokenData nowIso).reply ≠
      missingClientIdReply := by
  refine ⟨resolveDeviceFlowConfig_clientId_ne_empty credentialData env, ?_, ?_⟩
  · cases credential with
    | none =>
      intro h
      simp [startDeviceFlow, missingClientIdReply] at h
    | some decryptedData =>
      simp only [startDeviceFlow]
      rw [if_neg (resolveDeviceFlowConfig_clientId_ne_empty decryptedData env)]
      intro h
      simp [missingClientIdReply] at h
  · simp only [pollDeviceFlow]
    split
    · intro h
      simp [missingClientIdReply] at h
    · cases credential with
      | none =>
        intro h
        simp [missingClientIdReply] at h
      | some decryptedData =>
        simp only
        rw [if_neg (resolveDeviceFlowConfig_clientId_ne_empty decryptedData env)]
        split
        · intro h
          simp [missingClientIdReply] at h
        · split
          · intro h
            simp [missingClientIdReply] at h
          · intro h
            simp [missingClientIdReply] at h

/-- An attribute bag holding one unrelated key, for frame-condition
witnesses. -/
def sampleAttrs : Attrs := fun k => if k = "existing" then some "kept" else none

/-- C8: a poll request whose body carries no device code (missing or empty
under both accepted field names) gets HTTP 400 `BadRequest`, with no
upstream token-endpoint call and no credential store access — the check
precedes both. -/
theorem pollDeviceFlow_missing_deviceCode (credentialId : String)
    (body : PollBody) (credential : Option Attrs) (env : Env)
    (tokenData : TokenResponseData) (nowIso : String)
    (h : strTruthy (jsOr body.deviceCode body.device_code) = false) :
    (pollDeviceFlow credentialId body credential env tokenData nowIso).reply.statusCode = 400 ∧
    (pollDeviceFlow credentialId body credential env tokenData nowIso).reply.message =
      some "Missing deviceCode in request body" ∧
    (pollDeviceFlow credentialId body credential env tokenData nowIso).calledUpstream = false ∧
    (pollDeviceFlow credentialId body credential env tokenData nowIso).storeRead = false ∧
    (pollDeviceFlow credentialId body credential env tokenData nowIso).storeWrite = none := by
  refine ⟨?_, ?_, ?_, ?_, ?_⟩ <;> simp [pollDeviceFlow, h]

/-- Witness for C8: an empty `deviceCode` and an absent `device_code`. -/
theorem pollDeviceFlow_missing_deviceCode_witness :
    (pollDeviceFlow "cred-1" ⟨some "", none⟩ (some emptyAttrs) emptyEnv
      ⟨none, none, none, none, none⟩ "t").reply.statusCode = 400 ∧
    (pollDeviceFlow "cred-1" ⟨some "", none⟩ (some emptyAttrs) emptyEnv
      ⟨none, none, none, none, none⟩ "t").reply.message =
      some "Missing deviceCode in request body" ∧
    (pollDeviceFlow "cred-1" ⟨some "", none⟩ (some emptyAttrs) emptyEnv
      ⟨none, none, none, none, none⟩ "t").calledUpstream = false ∧
    (pollDeviceFlow "cred-1" ⟨some "", none⟩ (some emptyAttrs) emptyEnv
      ⟨none, none, none, none, none⟩ "t").storeRead = false ∧
    (pollDeviceFlow "cred-1" ⟨some "", none⟩ (some emptyAttrs) emptyEnv
      ⟨none, none, none, none, none⟩ "t").storeWrite = none :=
  pollDeviceFlow_missing_deviceCode "cred-1" ⟨some "", none⟩ (some emptyAttrs)
    emptyEnv ⟨none, none, none, none, none⟩ "t" (by decide)

/-- C3: with no `access_token` in the upstream token-endpoint body, an
`error` of `authorization_pending` or `slow_down` yields a non-error HTTP
200 `{success:false, status, error_description}` reply (the handler does
not throw: the model is total on this path); any other (non-empty) error
value yields HTTP 400 with the upstream error code as status and the
upstream (non-empty) error_description as message, with no credential
write either way. -/
theorem pollDeviceFlow_error_interpretation (credentialId : String)
    (body : PollBody) (decryptedData : Attrs) (env : Env)
    (tokenData : TokenResponseData) (nowIso : String)
    (hdc : strTruthy (jsOr body.deviceCode body.device_code) = true)
    (hat : tokenData.access_token = none) :
    (∀ e, tokenData.error = some e →
      e = "authorization_pending" ∨ e = "slow_down" →
      pollDeviceFlow credentialId body (some decryptedData) env tokenData nowIso =
        { reply := { statusCode := 200, success := false, status := some e,
                     message := none,
                     error_description := tokenData.error_description,
                     credentialId := none },
          storeRead := true, calledUpstream := true, storeWrite := none }) ∧
    (∀ e d, tokenData.error = some e → e ≠ "" →
      e ≠ "authorization_pending" → e ≠ "slow_down" →
      tokenData.error_description = some d → d ≠ "" →
      pollDeviceFlow credentialId body (some decryptedData) env tokenData nowIso =
        { reply := { statusCode := 400, success := false, status := some e,
                     message := some d, error_description := none,
                     credentialId := none },
          storeRead := true, calledUpstream := true, storeWrite := none }) := by
  have hcid := resolveDeviceFlowConfig_clientId_ne_empty decryptedData env
  have hsF : strTruthy tokenData.access_token = false := by rw [hat]; rfl
  constructor
  · intro e he hpe
    rcases hpe with h' | h' <;> subst h' <;>
      simp [pollDeviceFlow, hdc, hsF, he, hcid]
  · intro e d he hne hp hs hd hdne
    simp [pollDeviceFlow, hdc, hsF, he, hcid, hp, hs, hd,
      orElseStr, hne, hdne]

/-- Witness for C3: one pending poll and one terminal `access_denied`
poll. -/
theorem pollDeviceFlow_error_interpretation_witness :
    pollDeviceFlow "cred-1" ⟨some "dc", none⟩ (some emptyAttrs) emptyEnv
        ⟨none, none, none, some "authorization_pending", some "pending desc"⟩ "t" =
      { reply := { statusCode := 200, success := false,
                   status := some "authorization_pending", message := none,
                   error_description := some "pending desc", credentialId := none },
        storeRead := true, calledUpstream := true, storeWrite := none } ∧
    pollDeviceFlow "cred-1" ⟨some "dc", none⟩ (some emptyAttrs) emptyEnv
        ⟨none, none, none, some "access_denied", some "denied desc"⟩ "t" =
      { reply := { statusCode := 400, success := false,
                   status := some "access_denied", message := some "denied desc",
                   error_description := none, credentialId := none },
        storeRead := true, calledUpstream := true, storeWrite := none } :=
  ⟨(pollDeviceFlow_error_interpretation "cred-1" ⟨some "dc", none⟩ emptyAttrs
      emptyEnv ⟨none, none, none, some "authorization_pending", some "pending desc"⟩
      "t" (by decide) rfl).1 "authorization_pending" rfl (Or.inl rfl),
   (pollDeviceFlow_error_interpretation "cred-1" ⟨some "dc", none⟩ emptyAttrs
      emptyEnv ⟨none, none, none, some "access_denied", some "denied desc"⟩
      "t" (by decide) rfl).2 "access_denied" "denied desc" rfl (by decide)
      (by decide) (by decide) rfl (by decide)⟩

/-- C4: a non-empty `access_token` in the upstream body makes the poll
handler persist the literal token with its token type, scope and a
received-at timestamp into the attribute bag of the credential, and respond
`{success:true, status:"authorized", credentialId}`. -/
theorem pollDeviceFlow_authorized_persists (credentialId : String)
    (body : PollBody) (decryptedData : Attrs) (env : Env)
    (tokenData : TokenResponseData) (nowIso : String) (tok : String)
    (hdc : strTruthy (jsOr body.deviceCode body.device_code) = true)
    (hat : tokenData.access_token = some tok) (htok : tok ≠ "") :
    (pollDeviceFlow credentialId body (some decryptedData) env tokenData nowIso).reply =
      { statusCode := 200, success := true, status := some "authorized",
        message := none, error_description := none,
        credentialId := some credentialId } ∧
    (pollDeviceFlow credentialId body (some decryptedData) env tokenData nowIso).storeWrite =
      some (updatedCredentialData decryptedData tokenData nowIso) ∧
    updatedCredentialData decryptedData tokenData nowIso "githubAccessToken" = some tok ∧
    updatedCredentialData decryptedData tokenData nowIso "githubTokenType" =
      tokenData.token_type ∧
    updatedCredentialData decryptedData tokenData nowIso "githubTokenScope" =
      tokenData.scope ∧
    updatedCredentialData decryptedData tokenData nowIso "githubTokenReceivedAt" =
      some nowIso := by
  have hcid := resolveDeviceFlowConfig_clientId_ne_empty decryptedData env
  have hsT : strTruthy tokenData.access_token = true := by
    rw [hat]; simp [strTruthy, htok]
  refine ⟨?_, ?_, ?_, ?_, ?_, ?_⟩
  · simp [pollDeviceFlow, hdc, hsT, hcid]
  · simp [pollDeviceFlow, hdc, hsT, hcid]
  · simp [updatedCredentialData, hat]
  · simp [updatedCredentialData]
  · simp [updatedCredentialData]
  · simp [updatedCredentialData]

/-- Witness for C4 with a concrete authorized poll. -/
theorem pollDeviceFlow_authorized_persists_witness :
    (pollDeviceFlow "cred-1" ⟨some "dc", none⟩ (some sampleAttrs) emptyEnv
      ⟨some "abc", some "bearer", some "repo", none, none⟩ "t").reply =
      { statusCode := 200, success := true, status := some "authorized",
        message := none, error_description := none,
        credentialId := some "cred-1" } ∧
    (pollDeviceFlow "cred-1" ⟨some "dc", none⟩ (some sampleAttrs) emptyEnv
      ⟨some "abc", some "bearer", some "repo", none, none⟩ "t").storeWrite =
      some (updatedCredentialData sampleAttrs
        ⟨some "abc", some "bearer", some "repo", none, none⟩ "t") ∧
    updatedCredentialData sampleAttrs
      ⟨some "abc", some "bearer", some "repo", none, none⟩ "t" "githubAccessToken" =
      some "abc" ∧
    updatedCredentialData sampleAttrs
      ⟨some "abc", some "bearer", some "repo", none, none⟩ "t" "githubTokenType" =
      some "bearer" ∧
    updatedCredentialData sampleAttrs
      ⟨some "abc", some "bearer", some "repo", none, none⟩ "t" "githubTokenScope" =
      some "repo" ∧
    updatedCredentialData sampleAttrs
      ⟨some "abc", some "bearer", some "repo", none, none⟩ "t" "githubTokenReceivedAt" =
      some "t" :=
  pollDeviceFlow_authorized_persists "cred-1" ⟨some "dc", none⟩ sampleAttrs
    emptyEnv ⟨some "abc", some "bearer", some "repo", none, none⟩ "t" "abc"
    (by decide) rfl (by decide)

/-- C9: the bag written on a successful poll is the decrypted bag with
exactly the four GitHub token fields added or overwritten; every other
key keeps its prior value. -/
theorem pollDeviceFlow_write_frame (credentialId : String) (body : PollBody)
    (decryptedData : Attrs) (env : Env) (tokenData : TokenResponseData)
    (nowIso : String) (tok : String) (k : String)
    (hdc : strTruthy (jsOr body.deviceCode body.device_code) = true)
    (hat : tokenData.access_token = some tok) (htok : tok ≠ "")
    (hk1 : k ≠ "githubAccessToken") (hk2 : k ≠ "githubTokenType")
    (hk3 : k ≠ "githubTokenScope") (hk4 : k ≠ "githubTokenReceivedAt") :
    (pollDeviceFlow credentialId body (some decryptedData) env tokenData nowIso).storeWrite =
      some (updatedCredentialData decryptedData tokenData nowIso) ∧
    updatedCredentialData decryptedData tokenData nowIso k = decryptedData k := by
  have hcid := resolveDeviceFlowConfig_clientId_ne_empty decryptedData env
  have hsT : strTruthy tokenData.access_token = true := by
    rw [hat]; simp [strTruthy, htok]
  constructor
  · simp [pollDeviceFlow, hdc, hsT, hcid]
  · simp [updatedCredentialData, hk1, hk2, hk3, hk4]

/-- Witness for C9: the unrelated key `existing` keeps its value `kept`
across the write. -/
theorem pollDeviceFlow_write_frame_witness :
    (pollDeviceFlow "cred-1" ⟨some "dc", none⟩ (some sampleAttrs) emptyEnv
      ⟨some "abc", some "bearer", some "repo", none, none⟩ "t").storeWrite =
      some (updatedCredentialData sampleAttrs
        ⟨some "abc", some "bearer", some "repo", none, none⟩ "t") ∧
    updatedCredentialData sampleAttrs
      ⟨some "abc", some "bearer", some "repo", none, none⟩ "t" "existing" =
      some "kept" :=
  pollDeviceFlow_write_frame "cred-1" ⟨some "dc", none⟩ sampleAttrs emptyEnv
    ⟨some "abc", some "bearer", some "repo", none, none⟩ "t" "abc" "existing"
    (by decide) rfl (by decide) (by decide) (by decide) (by decide) (by decide)

/-! ## Token-cache lemmas -/

theorem getCachedCopilotToken_of_hit (cache : TokenCache) (cacheKey : String)
    (credentialData : CredSnapshot) (now : Int) (entry : CachedToken)
    (h1 : cache cacheKey = some entry)
    (h2 : entry.expiresAt > now + TOKEN_REFRESH_BUFFER_SECONDS) :
    getCachedCopilotToken cache cacheKey credentialData now =
      (some entry.token, cache) := by
  simp [getCachedCopilotToken, h1, h2]

theorem getCachedCopilotToken_of_no_hit (cache : TokenCache) (cacheKey : String)
    (credentialData : CredSnapshot) (now : Int)
    (h : freshCacheHit cache cacheKey now = false) :
    getCachedCopilotToken cache cacheKey credentialData now =
      getStoredCopilotToken cache cacheKey credentialData now := by
  unfold getCachedCopilotToken
  cases hc : cache cacheKey with
  | none => rfl
  | some cached =>
    simp only [freshCacheHit, hc] at h
    split_ifs at h with h1
    simp [h1]

theorem getStoredCopilotToken_of_fresh (cache : TokenCache) (cacheKey : String)
    (credentialData : CredSnapshot) (now : Int) (t : String) (e : Int)
    (ht : credentialData.copilotToken = some t)
    (he : credentialData.copilotTokenExpiresAt = some e)
    (htne : t ≠ "") (hene : e ≠ 0)
    (hfresh : normalizeExpiresAt e > now + TOKEN_REFRESH_BUFFER_SECONDS) :
    getStoredCopilotToken cache cacheKey credentialData now =
      (some t, setToken cache cacheKey ⟨t, normalizeExpiresAt e⟩) := by
  simp [getStoredCopilotToken, ht, he, htne, hene, hfresh]

theorem getStoredCopilotToken_of_not_fresh (cache : TokenCache) (cacheKey : String)
    (credentialData : CredSnapshot) (now : Int)
    (h : hasFreshStoredToken credentialData now = false) :
    getStoredCopilotToken cache cacheKey credentialData now = (none, cache) := by
  unfold getStoredCopilotToken
  cases ht : credentialData.copilotToken with
  | none => rfl
  | some t =>
    cases he : credentialData.copilotTokenExpiresAt with
    | none => rfl
    | some e =>
      simp only [hasFreshStoredToken, ht, he] at h
      split_ifs at h with h1 h2
      · simp [h1, h2]
      · simp [h1]

/-! ## Concrete caches for witnesses and counterexamples -/

/-- A cache holding a fresh entry under `key1` (`expiresAt` far beyond
`now + 300` for `now = 0`). -/
def sampleTokenCache : TokenCache :=
  fun k => if k = "key1" then some ⟨"tok1", 10000⟩ else none

/-- A cache holding a stale entry under `key1` (`expiresAt = 100`). -/
def staleTokenCache : TokenCache :=
  fun k => if k = "key1" then some ⟨"tok1", 100⟩ else none

/-- A model cache holding a stale entry under `mkey` for `nowMs ≥ 100`. -/
def staleModelCache : ModelCache :=
  fun k => if k = "mkey" then some ⟨[⟨"GPT", "gpt-4o"⟩], 100⟩ else none

/-- A snapshot with a fresh stored token (`5000 > 0 + 300`). -/
def storedSnapshot : CredSnapshot := ⟨some "stored", some 5000⟩

def sampleExchange : ExchangeResponse := ⟨"exTok", 99999⟩

/-- C1: a cache entry with `expiresAt > now + 300` is returned exactly; a
stale entry is never returned — with no fresh stored token in the
credential snapshot the lookup yields `undefined`. -/
theorem getCachedCopilotToken_fresh_exact (cache : TokenCache) (cacheKey : String)
    (credentialData : CredSnapshot) (now : Int) (entry : CachedToken)
    (hentry : cache cacheKey = some entry) :
    (entry.expiresAt > now + 300 →
      (getCachedCopilotToken cache cacheKey credentialData now).1 = some entry.token) ∧
    (entry.expiresAt ≤ now + 300 →
      hasFreshStoredToken credentialData now = false →
      (getCachedCopilotToken cache cacheKey credentialData now).1 = none) := by
  constructor
  · intro h
    rw [getCachedCopilotToken_of_hit cache cacheKey credentialData now entry hentry h]
  · intro h hnf
    have hno : freshCacheHit cache cacheKey now = false := by
      simp only [freshCacheHit, hentry]
      rw [if_neg (by simp only [TOKEN_REFRESH_BUFFER_SECONDS]; omega)]
    rw [getCachedCopilotToken_of_no_hit cache cacheKey credentialData now hno,
      getStoredCopilotToken_of_not_fresh cache cacheKey credentialData now hnf]

/-- Witness for C1: a fresh hit returns the token, a stale entry with an
empty snapshot returns `none`. -/
theorem getCachedCopilotToken_fresh_exact_witness :
    (getCachedCopilotToken sampleTokenCache "key1" emptySnapshot 0).1 = some "tok1" ∧
    (getCachedCopilotToken staleTokenCache "key1" emptySnapshot 0).1 = none :=
  ⟨(getCachedCopilotToken_fresh_exact sampleTokenCache "key1" emptySnapshot 0
      ⟨"tok1", 10000⟩ (by decide)).1 (by decide),
   (getCachedCopilotToken_fresh_exact staleTokenCache "key1" emptySnapshot 0
      ⟨"tok1", 100⟩ (by decide)).2 (by decide) rfl⟩

/-- C2 counterexample: the token cache holds the stale entry
`key1 ↦ {token := "tok1", expiresAt := 100}` at `now = 1000` and the
snapshot holds no stored token; the lookup returns absent, yet after the
call the cache still contains the stale entry — `getCachedCopilotToken`
never deletes, unlike `getCachedCopilotModels`. -/
theorem tokenCache_stale_entry_not_removed :
    (getCachedCopilotToken staleTokenCache "key1" emptySnapshot 1000).1 = none ∧
    (getCachedCopilotToken staleTokenCache "key1" emptySnapshot 1000).2 "key1" =
      some ⟨"tok1", 100⟩ := by
  constructor <;> rfl

/-- C2 amended: a stale get returns absent on both caches, but only the
model cache removes the stale entry; the token cache (absent a fresh
stored token) leaves the stale entry in place. -/
theorem cacheGet_stale_amended (mcache : ModelCache) (tcache : TokenCache)
    (mkey tkey : String) (credentialData : CredSnapshot) (now nowMs : Int)
    (me : CachedModels) (te : CachedToken)
    (hme : mcache mkey = some me) (hmstale : me.expiresAt ≤ nowMs)
    (hte : tcache tkey = some te) (htstale : te.expiresAt ≤ now + 300)
    (hnf : hasFreshStoredToken credentialData now = false) :
    (getCachedCopilotModels mcache mkey nowMs).1 = none ∧
    (getCachedCopilotModels mcache mkey nowMs).2 mkey = none ∧
    (getCachedCopilotToken tcache tkey credentialData now).1 = none ∧
    (getCachedCopilotToken tcache tkey credentialData now).2 tkey = some te := by
  have hmodels : getCachedCopilotModels mcache mkey nowMs =
      (none, fun k => if k = mkey then none else mcache k) := by
    simp only [getCachedCopilotModels, hme]
    rw [if_neg (by omega)]
  have hno : freshCacheHit tcache tkey now = false := by
    simp only [freshCacheHit, hte]
    rw [if_neg (by simp only [TOKEN_REFRESH_BUFFER_SECONDS]; omega)]
  have htoken : getCachedCopilotToken tcache tkey credentialData now =
      (none, tcache) := by
    rw [getCachedCopilotToken_of_no_hit tcache tkey credentialData now hno,
      getStoredCopilotToken_of_not_fresh tcache tkey credentialData now hnf]
  refine ⟨by rw [hmodels], by rw [hmodels]; simp, by rw [htoken], by rw [htoken]; exact hte⟩

/-- Witness for the amended C2 statement at concrete stale caches. -/
theorem cacheGet_stale_amended_witness :
    (getCachedCopilotModels staleModelCache "mkey" 1000).1 = none ∧
    (getCachedCopilotModels staleModelCache "mkey" 1000).2 "mkey" = none ∧
    (getCachedCopilotToken staleTokenCache "key1" emptySnapshot 1000).1 = none ∧
    (getCachedCopilotToken staleTokenCache "key1" emptySnapshot 1000).2 "key1" =
      some ⟨"tok1", 100⟩ :=
  cacheGet_stale_amended staleModelCache staleTokenCache "mkey" "key1"
    emptySnapshot 1000 1000 ⟨[⟨"GPT", "gpt-4o"⟩], 100⟩ ⟨"tok1", 100⟩
    (by decide) (by decide) (by decide) (by decide) rfl

/-- C7: `getCopilotToken` consults its sources in order: a fresh in-memory
entry (with a truthy token) is returned as-is without touching the cache;
otherwise a fresh stored token from the credential snapshot is seeded into
the cache and returned with no exchange call; only otherwise is the
exchange endpoint called, its normalized result cached and returned. -/
theorem getCopilotToken_consultation_order (cache : TokenCache)
    (cacheKey : String) (credentialData : CredSnapshot) (now : Int)
    (exchange : ExchangeResponse) :
    (∀ entry, cache cacheKey = some entry → entry.expiresAt > now + 300 →
      entry.token ≠ "" →
      getCopilotToken cache cacheKey credentialData now exchange =
        ⟨entry.token, cache, false⟩) ∧
    (freshCacheHit cache cacheKey now = false →
      ∀ t e, credentialData.copilotToken = some t →
        credentialData.copilotTokenExpiresAt = some e → t ≠ "" → e ≠ 0 →
        normalizeExpiresAt e > now + 300 →
      getCopilotToken cache cacheKey credentialData now exchange =
        ⟨t, setToken cache cacheKey ⟨t, normalizeExpiresAt e⟩, false⟩) ∧
    (freshCacheHit cache cacheKey now = false →
      hasFreshStoredToken credentialData now = false →
      getCopilotToken cache cacheKey credentialData now exchange =
        ⟨exchange.token,
         setToken cache cacheKey ⟨exchange.token, normalizeExpiresAt exchange.expires_at⟩,
         true⟩) := by
  refine ⟨?_, ?_, ?_⟩
  · intro entry hentry hfresh htok
    unfold getCopilotToken
    rw [getCachedCopilotToken_of_hit cache cacheKey credentialData now entry
      hentry hfresh]
    simp [strTruthy, htok]
  · intro hno t e ht he htne hene hfresh
    unfold getCopilotToken
    rw [getCachedCopilotToken_of_no_hit cache cacheKey credentialData now hno,
      getStoredCopilotToken_of_fresh cache cacheKey credentialData now t e
        ht he htne hene hfresh]
    simp [strTruthy, htne]
  · intro hno hnf
    unfold getCopilotToken
    rw [getCachedCopilotToken_of_no_hit cache cacheKey credentialData now hno,
      getStoredCopilotToken_of_not_fresh cache cacheKey credentialData now hnf]
    simp [strTruthy, fetchCopilotToken]

/-- Witness for C7: one fresh hit, one stored-token seeding, one exchange
call. -/
theorem getCopilotToken_consultation_order_witness :
    getCopilotToken sampleTokenCache "key1" emptySnapshot 0 sampleExchange =
      ⟨"tok1", sampleTokenCache, false⟩ ∧
    getCopilotToken staleTokenCache "key1" storedSnapshot 0 sampleExchange =
      ⟨"stored", setToken staleTokenCache "key1" ⟨"stored", normalizeExpiresAt 5000⟩,
       false⟩ ∧
    getCopilotToken staleTokenCache "key1" emptySnapshot 0 sampleExchange =
      ⟨"exTok", setToken staleTokenCache "key1"
        ⟨"exTok", normalizeExpiresAt 99999⟩, true⟩ :=
  ⟨(getCopilotToken_consultation_order sampleTokenCache "key1" emptySnapshot 0
      sampleExchange).1 ⟨"tok1", 10000⟩ (by decide) (by decide) (by decide),
   (getCopilotToken_consultation_order staleTokenCache "key1" storedSnapshot 0
      sampleExchange).2.1 (by decide) "stored" 5000 rfl rfl (by decide)
      (by decide) (by decide),
   (getCopilotToken_consultation_order staleTokenCache "key1" emptySnapshot 0
      sampleExchange).2.2 (by decide) rfl⟩

/-- Witness for C10 at a concrete credential, body and environment. -/
theorem deviceFlow_missing_clientId_unreachable_witness :
    (resolveDeviceFlowConfig emptyAttrs emptyEnv).clientId ≠ "" ∧
    (startDeviceFlow "cred-1" (some emptyAttrs) emptyEnv).reply ≠
      missingClientIdReply ∧
    (pollDeviceFlow "cred-1" ⟨some "dc", none⟩ (some emptyAttrs) emptyEnv
      ⟨none, none, none, none, none⟩ "t").reply ≠ missingClientIdReply :=
  deviceFlow_missing_clientId_unreachable emptyAttrs emptyEnv "cred-1"
    (some emptyAttrs) ⟨some "dc", none⟩ ⟨none, none, none, none, none⟩ "t"

end GithubCopilot
